import Mathlib

/-!
Shallow embedding of the account-service transfer engine (`src/main.py`).

Monetary values are embedded as exact rationals (`ℚ`).  The Python source
stores balances, transfer amounts and the daily limit as binary floats
(`Column(Float)`, `float(req.amount)`, `float(os.environ...)`); the
rational embedding reproduces the source's control flow and arithmetic
exactly on inputs whose float operations are exact, and the divergence
between float and decimal arithmetic is treated separately where a claim
is about the representation itself.

Database state is a pair of an account list and an append-only transaction
list; the SQLAlchemy queries `filter(...).first()` become `List.find?`,
and the in-place ORM mutation of the first matching row becomes a
first-occurrence update of the list.
-/

namespace AccountService

/-- The `accounts` table row (`class Account`, main.py lines 29-41).
The auto-increment surrogate `id` column is not part of the engine's logic
and is omitted; `account_id` is the key every query uses.
`created_at` is a timestamp, embedded as an integer instant. -/
structure Account where
  account_id : Int
  customer_id : Int
  account_number : String
  account_type : String
  balance : ℚ
  currency : String
  status : String
  created_at : Int
  customer_name : String
deriving Repr, DecidableEq

/-- The `transactions` table row (`class Transaction`, main.py lines 44-50),
without the store-assigned auto-increment `id`. -/
structure Transaction where
  from_account : Int
  to_account : Int
  amount : ℚ
  created_at : Int
deriving Repr, DecidableEq

/-- The persisted state: the accounts table and the append-only
transaction log. -/
structure Db where
  accounts : List Account
  transactions : List Transaction
deriving Repr, DecidableEq

/-- `class TransferRequest` (main.py lines 71-74).  The pydantic field type
`condecimal(gt=0, max_digits=20, decimal_places=2)` is the separate
predicate `validTransferAmount`. -/
structure TransferRequest where
  from_account : Int
  to_account : Int
  amount : ℚ
deriving Repr, DecidableEq

/-- `class CreateAccountRequest` (main.py lines 58-64).  `initial_balance`
has pydantic type `condecimal(max_digits=20, decimal_places=2)` — the
predicate `validInitialBalance`; optional fields carry their defaults. -/
structure CreateAccountRequest where
  customer_id : Int
  account_number : String
  account_type : String
  initial_balance : ℚ
  currency : String
  customer_name : Option String
deriving Repr, DecidableEq

/-- The `condecimal(gt = 0, max_digits = 20, decimal_places = 2)` constraint
on `TransferRequest.amount`: strictly positive, at most two fractional
digits, at most 20 digits in all. -/
def validTransferAmount (q : ℚ) : Prop :=
  0 < q ∧ (q * 100).den = 1 ∧ q * 100 < 10 ^ 20

/-- The `condecimal(max_digits = 20, decimal_places = 2)` constraint on
`CreateAccountRequest.initial_balance`: at most two fractional digits, at
most 20 digits in all.  There is no lower bound. -/
def validInitialBalance (q : ℚ) : Prop :=
  (q * 100).den = 1 ∧ |q * 100| < 10 ^ 20

/-- The distinct rejection outcomes of `transfer` (main.py lines 209-248),
one per `HTTPException` raise site; `dailyLimitExceeded` carries the limit,
the amount already sent today, and the attempted amount, as the detail
string does (lines 229-235); `transferFailed` is the catch-all 500 of the
commit phase (lines 246-248). -/
inductive TransferError where
  | selfTransfer
  | notFound
  | sourceInactive (status : String)
  | destInactive (status : String)
  | insufficientFunds
  | dailyLimitExceeded (limit alreadyToday attempting : ℚ)
  | transferFailed
deriving Repr, DecidableEq

/-- The success payload of `transfer` (main.py line 250). -/
structure TransferResult where
  from_account : Int
  to_account : Int
  amount : ℚ
deriving Repr, DecidableEq

/-- `db.query(Account).filter(Account.account_id == aid).first()`:
the first row whose `account_id` matches. -/
def findAccount (db : Db) (aid : Int) : Option Account :=
  db.accounts.find? (fun a => a.account_id == aid)

/-- The ORM mutation `row.balance = row.balance + delta` on the object the
query returned: the first row with the given `account_id` gets its balance
shifted; every other row, and every other field, is untouched. -/
def updateBalanceFirst (l : List Account) (aid : Int) (delta : ℚ) : List Account :=
  match l with
  | [] => []
  | a :: rest =>
    if a.account_id = aid then { a with balance := a.balance + delta } :: rest
    else a :: updateBalanceFirst rest aid delta

/-- `todays_transferred_sum` (main.py lines 191-202): the sum of `amount`
over transactions sent by `fromId` with `created_at` inside the inclusive
window `[dayStart, dayEnd]` (the source builds the window from midnight to
`datetime.max.time()` of the current day; the window bounds are parameters
here).  `coalesce(sum, 0.0)` is the sum of the empty list. -/
def todays_transferred_sum (db : Db) (fromId : Int) (dayStart dayEnd : Int) : ℚ :=
  ((db.transactions.filter
      (fun t => t.from_account == fromId
        && decide (dayStart ≤ t.created_at) && decide (t.created_at ≤ dayEnd))).map
    (fun t => t.amount)).sum

/-- The order in which `transfer` issues its two `with_for_update` row-lock
queries (main.py lines 212-213): always the source row first, then the
destination row — the order follows the direction of the request. -/
def locksRequested (req : TransferRequest) : List Int :=
  [req.from_account, req.to_account]

/-- The row locks the two `with_for_update` queries actually acquire: a
query whose filter matches no row locks nothing, so a lock is taken exactly
on each of the two requested ids that names an existing row (lock
acquisition and existence check are one combined step).  When
`from_account = to_account` the function raises before either query runs
(main.py lines 209-213). -/
def locksAcquired (db : Db) (req : TransferRequest) : List Int :=
  if req.from_account = req.to_account then []
  else
    (match findAccount db req.from_account with
      | some a => [a.account_id]
      | none => []) ++
    (match findAccount db req.to_account with
      | some a => [a.account_id]
      | none => [])

/-- `transfer` (main.py lines 205-252).  `limit` is the module constant
`DAILY_LIMIT`; `dayStart`/`dayEnd` the aggregation window of
`todays_transferred_sum`; `now` the timestamp the new transaction row gets;
`commitOk` models whether the store's commit phase succeeds — when it does
not, the source's `except` handler rolls the unit back (`db.rollback()`)
and surfaces the 500 `transferFailed` error, leaving the state unchanged.
Returns the post-call state together with the outcome. -/
def transfer (limit : ℚ) (db : Db) (req : TransferRequest)
    (dayStart dayEnd now : Int) (commitOk : Bool) :
    Db × Except TransferError TransferResult :=
  if req.from_account = req.to_account then
    (db, .error .selfTransfer)
  else
    match findAccount db req.from_account, findAccount db req.to_account with
    | none, _ => (db, .error .notFound)
    | some _, none => (db, .error .notFound)
    | some src, some dst =>
      if src.status ≠ "ACTIVE" then
        (db, .error (.sourceInactive src.status))
      else if dst.status ≠ "ACTIVE" then
        (db, .error (.destInactive dst.status))
      else if src.balance < req.amount then
        (db, .error .insufficientFunds)
      else if limit < todays_transferred_sum db req.from_account dayStart dayEnd + req.amount then
        (db, .error (.dailyLimitExceeded limit
          (todays_transferred_sum db req.from_account dayStart dayEnd) req.amount))
      else if commitOk then
        (⟨updateBalanceFirst (updateBalanceFirst db.accounts req.from_account (-req.amount))
            req.to_account req.amount,
          db.transactions ++
            [{ from_account := req.from_account, to_account := req.to_account,
               amount := req.amount, created_at := now }]⟩,
         .ok { from_account := src.account_id, to_account := dst.account_id,
               amount := req.amount })
      else
        (db, .error .transferFailed)

/-- `create_account` (main.py lines 130-153): allocates
`account_id = (max existing account_id or 0) + 1`, persists a new `ACTIVE`
account whose balance is the request's `initial_balance`, and returns the
new id and balance.  `customer_name or f"Customer {customer_id}"` falls
back on `None` and on the empty string. -/
def create_account (db : Db) (req : CreateAccountRequest) (now : Int) :
    Db × Int × ℚ :=
  let maxId : Int :=
    match db.accounts.map (fun a => a.account_id) with
    | [] => 0
    | x :: xs => xs.foldl max x
  let account_id := maxId + 1
  let name :=
    match req.customer_name with
    | some s => if s = "" then "Customer " ++ toString req.customer_id else s
    | none => "Customer " ++ toString req.customer_id
  let acc : Account :=
    { account_id := account_id, customer_id := req.customer_id,
      account_number := req.account_number, account_type := req.account_type,
      balance := req.initial_balance, currency := req.currency,
      status := "ACTIVE", created_at := now, customer_name := name }
  (⟨db.accounts ++ [acc], db.transactions⟩, account_id, acc.balance)

/-- A concrete account row used by the concrete evaluations below. -/
def sampleAccount (aid : Int) (bal : ℚ) (st : String) : Account :=
  { account_id := aid, customer_id := aid, account_number := toString aid,
    account_type := "SAVINGS", balance := bal, currency := "INR", status := st,
    created_at := 0, customer_name := "C" }

/-- A concrete two-account state: accounts 1 and 2, both ACTIVE with
balance 5000, empty transaction log. -/
def sampleDb : Db :=
  ⟨[sampleAccount 1 5000 "ACTIVE", sampleAccount 2 5000 "ACTIVE"], []⟩

/-- The exact rational value of the IEEE-754 binary64 double nearest to
the decimal 0.30 — the value Python's `float(0.30)` stores. -/
def dbl030 : ℚ := 5404319552844595 / 2 ^ 54

/-- The exact rational value of the IEEE-754 binary64 double nearest to
the decimal 0.10 — the value Python's `float(0.10)` stores. -/
def dbl010 : ℚ := 3602879701896397 / 2 ^ 55

/-- Account 1 seeded with the float value of 0.30 (what the source's
`Column(Float)` balance holds after storing decimal 0.30). -/
def floatSeedDb : Db :=
  ⟨[sampleAccount 1 dbl030 "ACTIVE", sampleAccount 2 0 "ACTIVE"], []⟩

/-- Account 1 seeded with the exact decimal 0.30. -/
def decimalSeedDb : Db :=
  ⟨[sampleAccount 1 (3 / 10) "ACTIVE", sampleAccount 2 0 "ACTIVE"], []⟩

/-- The exact rational value of the IEEE-754 binary64 double nearest to
the decimal 0.01 — the value Python's `float(0.01)` stores. -/
def dbl001 : ℚ := 5764607523034235 / 2 ^ 59

/-- The exact rational value of the binary64 double Python computes for
`1.0 - 0.1` (the rounded difference; also the double nearest to 0.9). -/
def dbl090 : ℚ := 8106479329266893 / 2 ^ 53

/-- The exact rational value of the binary64 double Python computes for
`0.3 + 0.1` (the rounded sum; also the double nearest to 0.4). -/
def dbl040 : ℚ := 3602879701896397 / 2 ^ 53

/-- IEEE-754 round-to-nearest-even at binary64 precision, for a positive
value `v` in the normal range (the only case the balances here need; the
rule is sign-symmetric): `u` is the ulp exponent, fixed by
`2 ^ (u + 52) ≤ v < 2 ^ (u + 53)` (53 significant bits), and the rounded
result `r` is a multiple `n * 2 ^ u` of the ulp within half an ulp of `v`,
a tie going to the even multiple.  These constraints determine `r`
uniquely; `roundsTo64 v r` therefore states that `r` is exactly the double
the source's float arithmetic (`Column(Float)` balances, main.py lines
239-240) produces from the exact value `v`. -/
def roundsTo64 (v r : ℚ) : Prop :=
  ∃ u : ℤ, (2 : ℚ) ^ (u + 52) ≤ v ∧ v < 2 ^ (u + 53) ∧
    ∃ n : ℤ, r = n * 2 ^ u ∧
      v - r ≤ 2 ^ u / 2 ∧ r - v ≤ 2 ^ u / 2 ∧
      ((v - r = 2 ^ u / 2 ∨ r - v = 2 ^ u / 2) → 2 ∣ n)

theorem find?_updateBalanceFirst_self (l : List Account) (aid : Int) (d : ℚ) :
    (updateBalanceFirst l aid d).find? (fun a => a.account_id == aid) =
      (l.find? (fun a => a.account_id == aid)).map
        (fun a => { a with balance := a.balance + d }) := by
  induction l with
  | nil => rfl
  | cons a rest ih =>
    unfold updateBalanceFirst
    by_cases h : a.account_id = aid
    · rw [if_pos h]
      rw [List.find?_cons_of_pos, List.find?_cons_of_pos] <;> simp [h]
    · rw [if_neg h]
      rw [List.find?_cons_of_neg, List.find?_cons_of_neg] <;> simp [h, ih]



theorem find?_updateBalanceFirst_other (l : List Account) (aid bid : Int) (d : ℚ)
    (hne : bid ≠ aid) :
    (updateBalanceFirst l aid d).find? (fun a => a.account_id == bid) =
      l.find? (fun a => a.account_id == bid) := by
  induction l with
  | nil => rfl
  | cons a rest ih =>
    unfold updateBalanceFirst
    by_cases h : a.account_id = aid
    · rw [if_pos h]
      rw [List.find?_cons_of_neg, List.find?_cons_of_neg] <;>
        · simp only [h, beq_iff_eq]
          exact fun hc => hne hc.symm
    · rw [if_neg h]
      by_cases h2 : a.account_id = bid
      · rw [List.find?_cons_of_pos, List.find?_cons_of_pos] <;> simp [h2]
      · rw [List.find?_cons_of_neg, List.find?_cons_of_neg] <;> simp [h2, ih]

theorem length_updateBalanceFirst (l : List Account) (aid : Int) (d : ℚ) :
    (updateBalanceFirst l aid d).length = l.length := by
  induction l with
  | nil => rfl
  | cons a rest ih =>
    unfold updateBalanceFirst
    by_cases h : a.account_id = aid
    · rw [if_pos h]; rfl
    · rw [if_neg h]; simpa using ih

theorem mem_updateBalanceFirst (l : List Account) (aid : Int) (d : ℚ) :
    ∀ b ∈ updateBalanceFirst l aid d,
      b ∈ l ∨ ∃ a, l.find? (fun a => a.account_id == aid) = some a ∧
        b = { a with balance := a.balance + d } := by
  induction l with
  | nil => intro b hb; exact absurd hb (by simp [updateBalanceFirst])
  | cons a rest ih =>
    intro b hb
    unfold updateBalanceFirst at hb
    by_cases h : a.account_id = aid
    · rw [if_pos h] at hb
      rcases List.mem_cons.mp hb with hb | hb
      · refine Or.inr ⟨a, ?_, hb⟩
        rw [List.find?_cons_of_pos]
        simp [h]
      · exact Or.inl (List.mem_cons.mpr (Or.inr hb))
    · rw [if_neg h] at hb
      rcases List.mem_cons.mp hb with hb | hb
      · exact Or.inl (List.mem_cons.mpr (Or.inl hb))
      · rcases ih b hb with h1 | ⟨x, hx1, hx2⟩
        · exact Or.inl (List.mem_cons.mpr (Or.inr h1))
        · refine Or.inr ⟨x, ?_, hx2⟩
          rw [List.find?_cons_of_neg]
          · exact hx1
          · simp [h]



theorem transfer_cases (limit : ℚ) (db : Db) (req : TransferRequest)
    (dayStart dayEnd now : Int) (commitOk : Bool) :
    (∃ e, transfer limit db req dayStart dayEnd now commitOk = (db, .error e)) ∨
    (∃ src dst,
      findAccount db req.from_account = some src ∧
      findAccount db req.to_account = some dst ∧
      req.from_account ≠ req.to_account ∧
      src.status = "ACTIVE" ∧ dst.status = "ACTIVE" ∧
      req.amount ≤ src.balance ∧
      todays_transferred_sum db req.from_account dayStart dayEnd + req.amount ≤ limit ∧
      commitOk = true ∧
      transfer limit db req dayStart dayEnd now commitOk =
        (⟨updateBalanceFirst (updateBalanceFirst db.accounts req.from_account (-req.amount))
            req.to_account req.amount,
          db.transactions ++
            [⟨req.from_account, req.to_account, req.amount, now⟩]⟩,
         .ok ⟨src.account_id, dst.account_id, req.amount⟩)) := by
  unfold transfer
  split
  · exact Or.inl ⟨_, rfl⟩
  next hne =>
  split
  · exact Or.inl ⟨_, rfl⟩
  · exact Or.inl ⟨_, rfl⟩
  next src dst hsrc hdst =>
  split_ifs with h1 h2 h3 h4 h5
  · exact Or.inl ⟨_, rfl⟩
  · exact Or.inl ⟨_, rfl⟩
  · exact Or.inl ⟨_, rfl⟩
  · exact Or.inl ⟨_, rfl⟩
  · exact Or.inr ⟨src, dst, hsrc, hdst, hne, not_not.mp h1, not_not.mp h2,
      not_lt.mp h3, by linarith [not_lt.mp h4], h5, rfl⟩
  · exact Or.inl ⟨_, rfl⟩

theorem transfer_ok_spec (limit : ℚ) (db : Db) (req : TransferRequest)
    (dayStart dayEnd now : Int) (commitOk : Bool) (r : TransferResult)
    (h : (transfer limit db req dayStart dayEnd now commitOk).2 = .ok r) :
    ∃ src dst,
      findAccount db req.from_account = some src ∧
      findAccount db req.to_account = some dst ∧
      req.from_account ≠ req.to_account ∧
      src.status = "ACTIVE" ∧ dst.status = "ACTIVE" ∧
      req.amount ≤ src.balance ∧
      todays_transferred_sum db req.from_account dayStart dayEnd + req.amount ≤ limit ∧
      r = ⟨src.account_id, dst.account_id, req.amount⟩ ∧
      transfer limit db req dayStart dayEnd now commitOk =
        (⟨updateBalanceFirst (updateBalanceFirst db.accounts req.from_account (-req.amount))
            req.to_account req.amount,
          db.transactions ++
            [⟨req.from_account, req.to_account, req.amount, now⟩]⟩,
         .ok r) := by
  rcases transfer_cases limit db req dayStart dayEnd now commitOk with
    ⟨e', he⟩ | ⟨src, dst, h1, h2, h3, h4, h5, h6, h7, _, heq⟩
  · rw [he] at h; simp at h
  · rw [heq] at h
    simp only [Except.ok.injEq] at h
    exact ⟨src, dst, h1, h2, h3, h4, h5, h6, h7, h.symm, by rw [heq, h]⟩

theorem transfer_self_error (limit : ℚ) (db : Db) (req : TransferRequest)
    (dayStart dayEnd now : Int) (commitOk : Bool)
    (h : req.from_account = req.to_account) :
    transfer limit db req dayStart dayEnd now commitOk = (db, .error .selfTransfer) := by
  unfold transfer
  rw [if_pos h]

theorem transfer_notFound (limit : ℚ) (db : Db) (req : TransferRequest)
    (dayStart dayEnd now : Int) (commitOk : Bool)
    (hne : req.from_account ≠ req.to_account)
    (h : findAccount db req.from_account = none ∨ findAccount db req.to_account = none) :
    transfer limit db req dayStart dayEnd now commitOk = (db, .error .notFound) := by
  unfold transfer
  rw [if_neg hne]
  rcases h with h | h
  · rw [h]
  · rcases hf : findAccount db req.from_account with _ | src
    · rfl
    · rw [h]

theorem transfer_sourceInactive (limit : ℚ) (db : Db) (req : TransferRequest)
    (dayStart dayEnd now : Int) (commitOk : Bool) (src dst : Account)
    (hne : req.from_account ≠ req.to_account)
    (hsrc : findAccount db req.from_account = some src)
    (hdst : findAccount db req.to_account = some dst)
    (hst : src.status ≠ "ACTIVE") :
    transfer limit db req dayStart dayEnd now commitOk =
      (db, .error (.sourceInactive src.status)) := by
  unfold transfer
  rw [if_neg hne, hsrc, hdst]
  simp only [if_pos hst]

theorem transfer_destInactive (limit : ℚ) (db : Db) (req : TransferRequest)
    (dayStart dayEnd now : Int) (commitOk : Bool) (src dst : Account)
    (hne : req.from_account ≠ req.to_account)
    (hsrc : findAccount db req.from_account = some src)
    (hdst : findAccount db req.to_account = some dst)
    (hsa : src.status = "ACTIVE") (hst : dst.status ≠ "ACTIVE") :
    transfer limit db req dayStart dayEnd now commitOk =
      (db, .error (.destInactive dst.status)) := by
  unfold transfer
  rw [if_neg hne, hsrc, hdst]
  simp only [if_neg (not_not_intro hsa), if_pos hst]

theorem transfer_insufficient (limit : ℚ) (db : Db) (req : TransferRequest)
    (dayStart dayEnd now : Int) (commitOk : Bool) (src dst : Account)
    (hne : req.from_account ≠ req.to_account)
    (hsrc : findAccount db req.from_account = some src)
    (hdst : findAccount db req.to_account = some dst)
    (hsa : src.status = "ACTIVE") (hda : dst.status = "ACTIVE")
    (hlt : src.balance < req.amount) :
    transfer limit db req dayStart dayEnd now commitOk =
      (db, .error .insufficientFunds) := by
  unfold transfer
  rw [if_neg hne, hsrc, hdst]
  simp only [if_neg (not_not_intro hsa), if_neg (not_not_intro hda), if_pos hlt]

theorem transfer_limitExceeded (limit : ℚ) (db : Db) (req : TransferRequest)
    (dayStart dayEnd now : Int) (commitOk : Bool) (src dst : Account)
    (hne : req.from_account ≠ req.to_account)
    (hsrc : findAccount db req.from_account = some src)
    (hdst : findAccount db req.to_account = some dst)
    (hsa : src.status = "ACTIVE") (hda : dst.status = "ACTIVE")
    (hge : req.amount ≤ src.balance)
    (hover : limit < todays_transferred_sum db req.from_account dayStart dayEnd + req.amount) :
    transfer limit db req dayStart dayEnd now commitOk =
      (db, .error (.dailyLimitExceeded limit
        (todays_transferred_sum db req.from_account dayStart dayEnd) req.amount)) := by
  unfold transfer
  rw [if_neg hne, hsrc, hdst]
  simp only [if_neg (not_not_intro hsa), if_neg (not_not_intro hda),
    if_neg (not_lt.mpr hge), if_pos hover]

theorem transfer_dailyLimit_inv (limit : ℚ) (db : Db) (req : TransferRequest)
    (dayStart dayEnd now : Int) (commitOk : Bool) (l t a : ℚ)
    (h : (transfer limit db req dayStart dayEnd now commitOk).2 =
      .error (.dailyLimitExceeded l t a)) :
    l = limit ∧ t = todays_transferred_sum db req.from_account dayStart dayEnd ∧
      a = req.amount ∧ limit < t + a := by
  unfold transfer at h
  split at h
  · simp at h
  split at h
  · simp at h
  · simp at h
  · split_ifs at h with h1 h2 h3 h4 h5 <;> simp at h
    obtain ⟨ha, hb, hc⟩ := h
    subst ha
    subst hb
    subst hc
    exact ⟨rfl, rfl, rfl, h4⟩

/-- C1: non-negativity of balances is preserved by `transfer`: when every
account balance is nonnegative before the call and the requested amount is
positive (the pydantic type `condecimal(gt=0, ...)` guarantees this at the
boundary), every account balance is nonnegative after the call, whether the
transfer succeeds or is rejected: the source is debited only when
`src.balance >= amount`, and the destination is only ever credited. -/
theorem transfer_preserves_nonnegativity (limit : ℚ) (db : Db) (req : TransferRequest)
    (dayStart dayEnd now : Int) (commitOk : Bool)
    (hamt : 0 < req.amount)
    (hnn : ∀ a ∈ db.accounts, 0 ≤ a.balance) :
    ∀ a ∈ (transfer limit db req dayStart dayEnd now commitOk).1.accounts,
      0 ≤ a.balance := by
  rcases transfer_cases limit db req dayStart dayEnd now commitOk with
    ⟨e, he⟩ | ⟨src, dst, hsrc, hdst, hne, hsa, hda, hbal, hlim, hcok, heq⟩
  · rw [he]; exact hnn
  · rw [heq]
    have hdeb : ∀ b ∈ updateBalanceFirst db.accounts req.from_account (-req.amount),
        0 ≤ b.balance := by
      intro b hb
      rcases mem_updateBalanceFirst _ _ _ b hb with h2 | ⟨y, hy1, hy2⟩
      · exact hnn b h2
      · have hy : y = src := by
          unfold findAccount at hsrc
          rw [hy1] at hsrc
          exact Option.some.inj hsrc
        subst hy2
        subst hy
        dsimp
        linarith
    intro a ha
    rcases mem_updateBalanceFirst _ _ _ a ha with h1 | ⟨x, hx1, hx2⟩
    · exact hdeb a h1
    · have hx : x ∈ updateBalanceFirst db.accounts req.from_account (-req.amount) :=
        List.mem_of_find?_eq_some hx1
      subst hx2
      dsimp
      linarith [hdeb x hx]

/-- C4: atomicity on failure: every call to `transfer` that ends in an
error (any precondition failure, and a failed commit phase, which rolls
back) leaves the persisted state — account balances and the transaction
log — exactly as it was before the call. -/
theorem transfer_atomic_on_error (limit : ℚ) (db : Db) (req : TransferRequest)
    (dayStart dayEnd now : Int) (commitOk : Bool) (e : TransferError)
    (h : (transfer limit db req dayStart dayEnd now commitOk).2 = .error e) :
    (transfer limit db req dayStart dayEnd now commitOk).1 = db := by
  rcases transfer_cases limit db req dayStart dayEnd now commitOk with
    ⟨e', he⟩ | ⟨src, dst, _, _, _, _, _, _, _, _, heq⟩
  · rw [he]
  · rw [heq] at h
    simp at h

/-- C9: frame: a successful transfer changes only the balance fields of the
source and destination accounts — every other field of those two accounts
(customer id, account number, account type, currency, customer name,
status, creation time) is unchanged, every other account is untouched, the
account table keeps its size, and the only addition to the transaction log
is the single new transaction record of this transfer. -/
theorem transfer_frame (limit : ℚ) (db : Db) (req : TransferRequest)
    (dayStart dayEnd now : Int) (commitOk : Bool) (r : TransferResult)
    (src dst : Account)
    (hsrc : findAccount db req.from_account = some src)
    (hdst : findAccount db req.to_account = some dst)
    (hok : (transfer limit db req dayStart dayEnd now commitOk).2 = .ok r) :
    (transfer limit db req dayStart dayEnd now commitOk).1.transactions =
      db.transactions ++ [⟨req.from_account, req.to_account, req.amount, now⟩] ∧
    findAccount (transfer limit db req dayStart dayEnd now commitOk).1
      req.from_account = some { src with balance := src.balance - req.amount } ∧
    findAccount (transfer limit db req dayStart dayEnd now commitOk).1
      req.to_account = some { dst with balance := dst.balance + req.amount } ∧
    (∀ bid, bid ≠ req.from_account → bid ≠ req.to_account →
      findAccount (transfer limit db req dayStart dayEnd now commitOk).1 bid =
        findAccount db bid) ∧
    (transfer limit db req dayStart dayEnd now commitOk).1.accounts.length =
      db.accounts.length := by
  obtain ⟨s, d, hs, hd, hne, _, _, _, _, _, heq⟩ :=
    transfer_ok_spec limit db req dayStart dayEnd now commitOk r hok
  rw [hs] at hsrc
  rw [hd] at hdst
  obtain rfl := Option.some.inj hsrc
  obtain rfl := Option.some.inj hdst
  refine ⟨by rw [heq], ?_, ?_, ?_, ?_⟩
  · rw [heq]
    unfold findAccount
    dsimp
    rw [find?_updateBalanceFirst_other _ _ _ _ hne, find?_updateBalanceFirst_self]
    unfold findAccount at hs
    rw [hs]
    dsimp
    rw [sub_eq_add_neg]
  · rw [heq]
    unfold findAccount
    dsimp
    rw [find?_updateBalanceFirst_self, find?_updateBalanceFirst_other _ _ _ _
      (fun hc => hne hc.symm)]
    unfold findAccount at hd
    rw [hd]
    rfl
  · intro bid hb1 hb2
    rw [heq]
    unfold findAccount
    dsimp
    rw [find?_updateBalanceFirst_other _ _ _ _ hb2,
      find?_updateBalanceFirst_other _ _ _ _ hb1]
  · rw [heq]
    dsimp
    rw [length_updateBalanceFirst, length_updateBalanceFirst]

/-- C7: the preconditions of `transfer` are checked in order — self
transfer, existence, source status, destination status, sufficient
balance, daily limit — each failure producing its own distinct error and
leaving the state unchanged; in particular a non-ACTIVE (e.g. FROZEN)
source yields the source-cannot-transact error regardless of the balance,
so it wins over `insufficientFunds`, and both balances stay as they were. -/
theorem transfer_checks_ordered :
    (∀ limit db req dayStart dayEnd now commitOk,
      req.from_account = req.to_account →
      transfer limit db req dayStart dayEnd now commitOk =
        (db, .error .selfTransfer)) ∧
    (∀ limit db req dayStart dayEnd now commitOk,
      req.from_account ≠ req.to_account →
      (findAccount db req.from_account = none ∨
        findAccount db req.to_account = none) →
      transfer limit db req dayStart dayEnd now commitOk =
        (db, .error .notFound)) ∧
    (∀ limit db req dayStart dayEnd now commitOk src dst,
      req.from_account ≠ req.to_account →
      findAccount db req.from_account = some src →
      findAccount db req.to_account = some dst →
      src.status ≠ "ACTIVE" →
      transfer limit db req dayStart dayEnd now commitOk =
        (db, .error (.sourceInactive src.status))) ∧
    (∀ limit db req dayStart dayEnd now commitOk src dst,
      req.from_account ≠ req.to_account →
      findAccount db req.from_account = some src →
      findAccount db req.to_account = some dst →
      src.status = "ACTIVE" → dst.status ≠ "ACTIVE" →
      transfer limit db req dayStart dayEnd now commitOk =
        (db, .error (.destInactive dst.status))) ∧
    (∀ limit db req dayStart dayEnd now commitOk src dst,
      req.from_account ≠ req.to_account →
      findAccount db req.from_account = some src →
      findAccount db req.to_account = some dst →
      src.status = "ACTIVE" → dst.status = "ACTIVE" →
      src.balance < req.amount →
      transfer limit db req dayStart dayEnd now commitOk =
        (db, .error .insufficientFunds)) ∧
    (∀ limit db req dayStart dayEnd now commitOk src dst,
      req.from_account ≠ req.to_account →
      findAccount db req.from_account = some src →
      findAccount db req.to_account = some dst →
      src.status = "ACTIVE" → dst.status = "ACTIVE" →
      req.amount ≤ src.balance →
      limit < todays_transferred_sum db req.from_account dayStart dayEnd +
        req.amount →
      transfer limit db req dayStart dayEnd now commitOk =
        (db, .error (.dailyLimitExceeded limit
          (todays_transferred_sum db req.from_account dayStart dayEnd)
          req.amount))) := by
  refine ⟨?_, ?_, ?_, ?_, ?_, ?_⟩
  · intro limit db req ds de now cok h
    exact transfer_self_error limit db req ds de now cok h
  · intro limit db req ds de now cok hne h
    exact transfer_notFound limit db req ds de now cok hne h
  · intro limit db req ds de now cok src dst hne hsrc hdst hst
    exact transfer_sourceInactive limit db req ds de now cok src dst hne hsrc hdst hst
  · intro limit db req ds de now cok src dst hne hsrc hdst hsa hst
    exact transfer_destInactive limit db req ds de now cok src dst hne hsrc hdst hsa hst
  · intro limit db req ds de now cok src dst hne hsrc hdst hsa hda hlt
    exact transfer_insufficient limit db req ds de now cok src dst hne hsrc hdst hsa hda hlt
  · intro limit db req ds de now cok src dst hne hsrc hdst hsa hda hge hover
    exact transfer_limitExceeded limit db req ds de now cok src dst hne hsrc hdst hsa hda hge hover

/-- C2: daily-limit enforcement at the boundary: a transfer commits only
when `todays_transferred_sum + amount <= limit`; the daily-limit rejection
carries exactly the limit, the amount already sent today, and the
attempted amount, and it fires exactly when the sum would overshoot; and
concretely, with a limit of 1000 and nothing sent today, a transfer of
1001 is rejected with `dailyLimitExceeded (1000, 0, 1001)`, a transfer of
1000 succeeds, and a subsequent transfer of 1 the same day is rejected
with `dailyLimitExceeded (1000, 1000, 1)`. -/
theorem daily_limit_boundary_enforcement :
    (∀ limit db req dayStart dayEnd now commitOk r,
      (transfer limit db req dayStart dayEnd now commitOk).2 = .ok r →
      todays_transferred_sum db req.from_account dayStart dayEnd + req.amount ≤
        limit) ∧
    (∀ limit db req dayStart dayEnd now commitOk l t a,
      (transfer limit db req dayStart dayEnd now commitOk).2 =
        .error (.dailyLimitExceeded l t a) →
      l = limit ∧ t = todays_transferred_sum db req.from_account dayStart dayEnd ∧
        a = req.amount ∧ limit < t + a) ∧
    (transfer 1000 sampleDb ⟨1, 2, 1001⟩ 0 100 50 true).2 =
      .error (.dailyLimitExceeded 1000 0 1001) ∧
    (transfer 1000 sampleDb ⟨1, 2, 1000⟩ 0 100 50 true).2 = .ok ⟨1, 2, 1000⟩ ∧
    (transfer 1000 ((transfer 1000 sampleDb ⟨1, 2, 1000⟩ 0 100 50 true).1)
      ⟨1, 2, 1⟩ 0 100 60 true).2 = .error (.dailyLimitExceeded 1000 1000 1) := by
  refine ⟨?_, ?_, ?_, ?_, ?_⟩
  · intro limit db req ds de now cok r h
    obtain ⟨s, d, _, _, _, _, _, _, hlim, _, _⟩ :=
      transfer_ok_spec limit db req ds de now cok r h
    exact hlim
  · intro limit db req ds de now cok l t a h
    exact transfer_dailyLimit_inv limit db req ds de now cok l t a h
  · norm_num [transfer, sampleDb, sampleAccount, findAccount,
      todays_transferred_sum, updateBalanceFirst]
  · norm_num [transfer, sampleDb, sampleAccount, findAccount,
      todays_transferred_sum, updateBalanceFirst]
  · norm_num [transfer, sampleDb, sampleAccount, findAccount,
      todays_transferred_sum, updateBalanceFirst]

/-- C8: when the source or the destination account does not exist,
`transfer` returns the not-found error and leaves the state unchanged, and
because the `with_for_update` lookup acquires a lock exactly on the row it
finds, every lock acquired during the call names an account that exists —
a lookup miss cannot leave any row locked (the session close in the
function's `finally` releases the locks a call did acquire on every path,
per the store contract). -/
theorem notfound_no_lock_on_missing (limit : ℚ) (db : Db) (req : TransferRequest)
    (dayStart dayEnd now : Int) (commitOk : Bool)
    (hne : req.from_account ≠ req.to_account)
    (hmiss : findAccount db req.from_account = none ∨
      findAccount db req.to_account = none) :
    (transfer limit db req dayStart dayEnd now commitOk).2 = .error .notFound ∧
    (transfer limit db req dayStart dayEnd now commitOk).1 = db ∧
    (∀ aid ∈ locksAcquired db req, (findAccount db aid).isSome) := by
  have heq := transfer_notFound limit db req dayStart dayEnd now commitOk hne hmiss
  refine ⟨by rw [heq], by rw [heq], ?_⟩
  intro aid haid
  unfold locksAcquired at haid
  rw [if_neg hne] at haid
  rcases List.mem_append.mp haid with h | h
  · rcases hf : findAccount db req.from_account with _ | a
    · rw [hf] at h; simp at h
    · rw [hf] at h
      simp only [List.mem_singleton] at h
      subst h
      have hpa : a.account_id = req.from_account := by
        simpa using List.find?_some hf
      rw [hpa, hf]
      rfl
  · rcases hf : findAccount db req.to_account with _ | a
    · rw [hf] at h; simp at h
    · rw [hf] at h
      simp only [List.mem_singleton] at h
      subst h
      have hpa : a.account_id = req.to_account := by
        simpa using List.find?_some hf
      rw [hpa, hf]
      rfl

/-- C5: the lock-acquisition order of `transfer` (main.py lines 212-213) is
source row first, then destination row — it follows the direction of the
request, so the two opposite-direction requests 1→2 and 2→1 acquire the
same two locks in reverse orders (the classical deadlock cycle); the order
is NOT a fixed global (for instance ascending-id) order. -/
theorem lock_order_depends_on_direction :
    locksRequested ⟨1, 2, 5⟩ = [1, 2] ∧
    locksRequested ⟨2, 1, 5⟩ = [2, 1] ∧
    locksRequested ⟨2, 1, 5⟩ = (locksRequested ⟨1, 2, 5⟩).reverse ∧
    locksRequested ⟨2, 1, 5⟩ ≠ locksRequested ⟨1, 2, 5⟩ :=
  ⟨rfl, rfl, rfl, by decide⟩

/-- C6 (refuting evaluation): the source stores money in binary64 floats
(`balance = Column(Float)`, `amt = float(req.amount)`,
`DAILY_LIMIT = float(...)`), not in exact decimal.  Seeding an account
with decimal 0.30 stores `dbl030 ≠ 3/10`, and three debits of 0.10 (stored
as `dbl010`) behave differently from exact decimal arithmetic: the two
float subtractions are exact in binary64 (both differences are
representable), so the embedding evaluates the very rationals Python
computes — after two successful 0.10 transfers the float balance is
strictly below 0.10 and the third transfer is rejected with
`insufficientFunds`, while in exact decimal arithmetic the third transfer
of 1/10 from a 3/10 balance succeeds. -/
theorem float_money_breaks_decimal_semantics :
    dbl030 ≠ 3 / 10 ∧
    dbl030 - dbl010 - dbl010 < dbl010 ∧
    (3 : ℚ) / 10 - 1 / 10 - 1 / 10 = 1 / 10 ∧
    (transfer 1000000 (transfer 1000000 (transfer 1000000 floatSeedDb
        ⟨1, 2, dbl010⟩ 0 1000 10 true).1
        ⟨1, 2, dbl010⟩ 0 1000 20 true).1 ⟨1, 2, dbl010⟩ 0 1000 30 true).2 =
      .error .insufficientFunds ∧
    (transfer 1000000 (transfer 1000000 (transfer 1000000 decimalSeedDb
        ⟨1, 2, 1 / 10⟩ 0 1000 10 true).1
        ⟨1, 2, 1 / 10⟩ 0 1000 20 true).1 ⟨1, 2, 1 / 10⟩ 0 1000 30 true).2 =
      .ok ⟨1, 2, 1 / 10⟩ := by
  refine ⟨by norm_num [dbl030], by norm_num [dbl030, dbl010], by norm_num, ?_, ?_⟩ <;>
    norm_num [transfer, floatSeedDb, decimalSeedDb, sampleAccount, findAccount,
      todays_transferred_sum, updateBalanceFirst, dbl030, dbl010]

/-- C3 (refuting evaluation): exact conservation fails in the source's
binary64 float arithmetic.  With stored balances 1.0 (source) and `dbl030`
(destination, the double for 0.30) and amount `dbl010` (the double for
0.10), the debit `1.0 - 0.1` rounds to `dbl090` and the credit `0.3 + 0.1`
rounds to `dbl040` — both certified against the IEEE round-to-nearest-even
constraint `roundsTo64` — and the stored pair sum GROWS by exactly
`2 ^ (-54)`: `dbl090 + dbl040 ≠ 1 + dbl030`.  Worse, from a stored balance
of `10 ^ 16` a debit of 0.01 rounds straight back to `10 ^ 16`: the debit
vanishes while the credit lands on the destination.  Conservation holds
only of the exact decimal arithmetic the spec mandates, not of the float
arithmetic the code performs (main.py lines 239-240). -/
theorem float_transfer_breaks_conservation :
    roundsTo64 (1 - dbl010) dbl090 ∧
    roundsTo64 (dbl030 + dbl010) dbl040 ∧
    dbl090 + dbl040 ≠ 1 + dbl030 ∧
    dbl090 + dbl040 - (1 + dbl030) = 1 / 2 ^ 54 ∧
    roundsTo64 (10 ^ 16 - dbl001) (10 ^ 16) := by
  refine ⟨⟨-53, ?_, ?_, 8106479329266893, ?_, ?_, ?_, ?_⟩,
    ⟨-54, ?_, ?_, 7205759403792794, ?_, ?_, ?_, ?_⟩,
    by norm_num [dbl090, dbl040, dbl030],
    by norm_num [dbl090, dbl040, dbl030],
    ⟨1, ?_, ?_, 5000000000000000, ?_, ?_, ?_, ?_⟩⟩
  · norm_num [dbl010]
  · norm_num [dbl010]
  · norm_num [dbl090]
  · norm_num [dbl010, dbl090]
  · norm_num [dbl010, dbl090]
  · intro h
    rcases h with h | h <;> norm_num [dbl010, dbl090] at h
  · norm_num [dbl030, dbl010]
  · norm_num [dbl030, dbl010]
  · norm_num [dbl040]
  · norm_num [dbl030, dbl010, dbl040]
  · norm_num [dbl030, dbl010, dbl040]
  · intro h
    exact ⟨3602879701896397, by norm_num⟩
  · norm_num [dbl001]
  · norm_num [dbl001]
  · norm_num
  · norm_num [dbl001]
  · norm_num [dbl001]
  · intro h
    rcases h with h | h <;> norm_num [dbl001] at h

/-- C10: `create_account` places no lower bound on `initial_balance`: the
request validation (`condecimal(max_digits=20, decimal_places=2)`) accepts
-500, and the created account is persisted with balance -500 < 0 — the
`balance >= 0` invariant is not established at the account-creation
boundary. -/
theorem create_account_allows_negative_balance :
    validInitialBalance (-500) ∧
    ((create_account ⟨[], []⟩ ⟨7, "A1", "SAVINGS", -500, "INR", none⟩ 0).1.accounts.map
      (fun a => a.balance)) = [-500] ∧
    (create_account ⟨[], []⟩ ⟨7, "A1", "SAVINGS", -500, "INR", none⟩ 0).2.2 < 0 := by
  refine ⟨⟨?_, ?_⟩, ?_, ?_⟩
  · norm_num [validInitialBalance]
  · norm_num [validInitialBalance]
  · norm_num [create_account]
  · norm_num [create_account]

/-- Witness for C1 at a concrete input: both sample balances are
nonnegative before, and remain so after a successful transfer of 1000. -/
theorem transfer_preserves_nonnegativity_witness :
    (0 : ℚ) < 1000 ∧ (∀ a ∈ sampleDb.accounts, 0 ≤ a.balance) ∧
    ∀ a ∈ (transfer 1000 sampleDb ⟨1, 2, 1000⟩ 0 100 50 true).1.accounts,
      0 ≤ a.balance := by
  have hnn : ∀ a ∈ sampleDb.accounts, 0 ≤ a.balance := by
    intro a ha
    simp only [sampleDb, List.mem_cons, List.not_mem_nil, or_false] at ha
    rcases ha with rfl | rfl <;> norm_num [sampleAccount]
  exact ⟨by norm_num, hnn,
    transfer_preserves_nonnegativity 1000 sampleDb ⟨1, 2, 1000⟩ 0 100 50 true
      (by norm_num) hnn⟩

/-- Witness for C4 at a concrete input: a commit-phase failure surfaces
`transferFailed` and leaves the sample state untouched. -/
theorem transfer_atomic_on_error_witness :
    (transfer 1000000 sampleDb ⟨1, 2, 100⟩ 0 100 50 false).2 =
      .error .transferFailed ∧
    (transfer 1000000 sampleDb ⟨1, 2, 100⟩ 0 100 50 false).1 = sampleDb :=
  ⟨by norm_num [transfer, sampleDb, sampleAccount, findAccount,
      todays_transferred_sum, updateBalanceFirst],
   transfer_atomic_on_error 1000000 sampleDb ⟨1, 2, 100⟩ 0 100 50 false
    .transferFailed
    (by norm_num [transfer, sampleDb, sampleAccount, findAccount,
      todays_transferred_sum, updateBalanceFirst])⟩

/-- Witness for C9 at a concrete input: the successful 1000 transfer
appends exactly one transaction record to the sample log. -/
theorem transfer_frame_witness :
    (transfer 1000 sampleDb ⟨1, 2, 1000⟩ 0 100 50 true).1.transactions =
      sampleDb.transactions ++ [⟨1, 2, 1000, 50⟩] :=
  (transfer_frame 1000 sampleDb ⟨1, 2, 1000⟩ 0 100 50 true ⟨1, 2, 1000⟩
    (sampleAccount 1 5000 "ACTIVE") (sampleAccount 2 5000 "ACTIVE") rfl rfl
    (by norm_num [transfer, sampleDb, sampleAccount, findAccount,
      todays_transferred_sum, updateBalanceFirst])).1

/-- Witness for C8 at a concrete input: transferring to the non-existent
account 3 yields the not-found error, an unchanged state, and only locks
on existing rows. -/
theorem notfound_no_lock_on_missing_witness :
    (transfer 1000 sampleDb ⟨1, 3, 5⟩ 0 100 50 true).2 = .error .notFound ∧
    (transfer 1000 sampleDb ⟨1, 3, 5⟩ 0 100 50 true).1 = sampleDb ∧
    (∀ aid ∈ locksAcquired sampleDb ⟨1, 3, 5⟩, (findAccount sampleDb aid).isSome) :=
  notfound_no_lock_on_missing 1000 sampleDb ⟨1, 3, 5⟩ 0 100 50 true
    (by decide) (Or.inr rfl)

end AccountService
